import Mathlib

/-!
Shallow embedding of the seat-locking core of `src/node4.3.js`.

The JavaScript service keeps an in-memory object `seats` mapping seat-id
strings to records `{status, lockOwner, lockExpiresAt, timer}` and exposes
four HTTP handlers (lock, confirm, unlock, list) plus an internal
`releaseLock` helper and a `setTimeout` expiry callback.

Modelling choices:
* the store is an association list `List (String × Seat)` (JS object keyed
  by the stringified seat number);
* timestamps are `Nat` (`Date.now()` values); the handler's single call to
  `Date.now()` per request is passed in as a `now` parameter;
* timer handles are `Option Nat` (`null` or an opaque `setTimeout` id); a
  fresh id for a newly scheduled timer is passed in as `tid`;
* each handler returns `Except ApiError α × Store`: the HTTP error response
  it would send, or the success payload, together with the updated store;
* JS truthiness of `lockExpiresAt` (`null` and `0` are falsy) is embedded
  exactly in `lockLapsed` and `expiryLapsed`;
* JS truthiness of `userId` (`undefined`, `null`, `""` are falsy) is
  embedded in `missingUser`.
-/

namespace SeatLock

/-- `status` field: `'available' | 'locked' | 'booked'` (node4.3.js lines 16, 27). -/
inductive Status where
  | available
  | locked
  | booked
deriving DecidableEq, Repr

/-- One entry of the `seats` object (node4.3.js lines 26-31). -/
structure Seat where
  status : Status
  lockOwner : Option String
  lockExpiresAt : Option Nat
  timer : Option Nat
deriving DecidableEq, Repr

/-- The error responses the handlers can send, named after the spec's error
kinds; `cannotLock` is the defensive `status: ...` 400 of line 87. -/
inductive ApiError where
  | invalidRequest
  | notFound
  | alreadyBooked
  | conflict
  | cannotLock
  | notLocked
  | forbidden
  | expired
deriving DecidableEq, Repr

/-- The `seats` registry: seat-id string to record (node4.3.js line 21). -/
abbrev Store := List (String × Seat)

/-- `LOCK_TTL_MS = 60 * 1000` (node4.3.js line 11). -/
def LOCK_TTL_MS : Nat := 60 * 1000

/-- `SEAT_COUNT = 10` (node4.3.js line 24). -/
def SEAT_COUNT : Nat := 10

/-- A freshly initialised seat (node4.3.js lines 26-31). -/
def initSeat : Seat :=
  { status := .available, lockOwner := none, lockExpiresAt := none, timer := none }

/-- The init loop `for (let i = 1; i <= SEAT_COUNT; i++)` (node4.3.js lines 25-32). -/
def initSeats : Store :=
  (List.range SEAT_COUNT).map (fun i => (toString (i + 1), initSeat))

/-- `seats[seatId]` lookup; `none` models `undefined`. -/
def getSeat : Store → String → Option Seat
  | [], _ => none
  | (k, s) :: rest, id => if k = id then some s else getSeat rest id

/-- In-place mutation of the record stored under `id` (the JS handlers only
assign to fields of an existing `seats[seatId]`): every entry keyed `id` is
replaced, entries with other keys and the order of entries are untouched. -/
def setSeat : Store → String → Seat → Store
  | [], _, _ => []
  | (k, s0) :: rest, id, s =>
    (if k = id then (id, s) else (k, s0)) :: setSeat rest id s

/-- `!userId`: true for a missing body field (`undefined`/`null`) and for
the empty string (node4.3.js lines 61, 120, 165). -/
def missingUser : Option String → Bool
  | none => true
  | some u => u.isEmpty

/-- `seat.lockExpiresAt && seat.lockExpiresAt <= now` (node4.3.js line 77):
`null` and the (unreachable) timestamp `0` are falsy. -/
def lockLapsed (e : Option Nat) (now : Nat) : Bool :=
  match e with
  | none => false
  | some t => decide (t ≠ 0 ∧ t ≤ now)

/-- `!seat.lockExpiresAt || seat.lockExpiresAt <= Date.now()` (node4.3.js
line 141): `null` and `0` are falsy, hence lapsed. -/
def expiryLapsed (e : Option Nat) (now : Nat) : Bool :=
  match e with
  | none => true
  | some t => decide (t = 0 ∨ t ≤ now)

/-- Effect of `releaseLock` on the seat record itself (node4.3.js lines
41-50): clear the timer, and reset the lock fields only if still locked. -/
def releaseSeat (s : Seat) : Seat :=
  let s1 := if s.timer.isSome then { s with timer := none } else s
  if s1.status = .locked then
    { s1 with status := .available, lockOwner := none, lockExpiresAt := none }
  else s1

/-- `releaseLock(seatId)` (node4.3.js lines 38-51): no-op when the seat does
not exist. -/
def releaseLock (seatId : String) (store : Store) : Store :=
  match getSeat store seatId with
  | none => store
  | some s => setSeat store seatId (releaseSeat s)

/-- `POST /lock/:id` handler (node4.3.js lines 58-110).  In the lapsed-lock
branch the JS mutates the seat via `releaseLock` and then keeps using the
same object reference, so the embedding continues with `releaseSeat seat`
on the updated store. -/
def lockOp (store : Store) (seatId : String) (userId : Option String) (now tid : Nat) :
    Except ApiError Nat × Store :=
  if missingUser userId then (.error .invalidRequest, store)
  else
    match getSeat store seatId with
    | none => (.error .notFound, store)
    | some seat =>
      if seat.status = .booked then (.error .alreadyBooked, store)
      else if seat.status = .locked then
        if lockLapsed seat.lockExpiresAt now then
          -- expired: release then continue to lock (lines 78-79, 85-109);
          -- the JS keeps using the same object reference after `releaseLock`,
          -- so the fall-through reads `releaseSeat seat` on the updated store
          if (releaseSeat seat).status ≠ .available then
            (.error .cannotLock, setSeat store seatId (releaseSeat seat))
          else
            (.ok (now + LOCK_TTL_MS),
             setSeat (setSeat store seatId (releaseSeat seat)) seatId
               { status := .locked, lockOwner := userId,
                 lockExpiresAt := some (now + LOCK_TTL_MS), timer := some tid })
        else (.error .conflict, store)
      else
        if seat.status ≠ .available then (.error .cannotLock, store)
        else
          (.ok (now + LOCK_TTL_MS),
           setSeat store seatId
             { status := .locked, lockOwner := userId,
               lockExpiresAt := some (now + LOCK_TTL_MS), timer := some tid })

/-- `POST /confirm/:id` handler (node4.3.js lines 117-157). -/
def confirmOp (store : Store) (seatId : String) (userId : Option String) (now : Nat) :
    Except ApiError Unit × Store :=
  if missingUser userId then (.error .invalidRequest, store)
  else
    match getSeat store seatId with
    | none => (.error .notFound, store)
    | some seat =>
      if seat.status = .booked then (.error .alreadyBooked, store)
      else if seat.status ≠ .locked then (.error .notLocked, store)
      else if seat.lockOwner ≠ userId then (.error .forbidden, store)
      else if expiryLapsed seat.lockExpiresAt now then
        (.error .expired, setSeat store seatId (releaseSeat seat))
      else
        (.ok (), setSeat store seatId
          { seat with status := .booked, lockOwner := none,
                      lockExpiresAt := none, timer := none })

/-- `POST /unlock/:id` handler (node4.3.js lines 162-180). -/
def unlockOp (store : Store) (seatId : String) (userId : Option String) :
    Except ApiError Unit × Store :=
  if missingUser userId then (.error .invalidRequest, store)
  else
    match getSeat store seatId with
    | none => (.error .notFound, store)
    | some seat =>
      if seat.status ≠ .locked then (.error .notLocked, store)
      else if seat.lockOwner ≠ userId then (.error .forbidden, store)
      else (.ok (), setSeat store seatId (releaseSeat seat))

/-- The `setTimeout` expiry callback (node4.3.js lines 101-107): only act if
the seat still exists and is still locked. -/
def expireCallback (seatId : String) (store : Store) : Store :=
  match getSeat store seatId with
  | none => store
  | some s => if s.status = .locked then releaseLock seatId store else store

/-- The per-seat view returned by `GET /seats` (node4.3.js lines 190-194):
no timer field; owner and expiry only shown for locked seats. -/
structure SeatView where
  status : Status
  lockOwner : Option String
  lockExpiresAt : Option Nat
deriving DecidableEq, Repr

/-- `GET /seats` view of one seat (node4.3.js lines 190-194). -/
def viewOf (s : Seat) : SeatView :=
  { status := s.status,
    lockOwner := if s.status = .locked then s.lockOwner else none,
    lockExpiresAt := if s.status = .locked then s.lockExpiresAt else none }

/-- `GET /seats` handler (node4.3.js lines 187-197): read-only map over the
registry. -/
def snapshot (store : Store) : List (String × SeatView) :=
  store.map (fun p => (p.1, viewOf p.2))

/-- One external stimulus: the four operations plus the expiry callback. -/
inductive Op where
  | lock (seatId : String) (userId : Option String) (now tid : Nat)
  | confirm (seatId : String) (userId : Option String) (now : Nat)
  | unlock (seatId : String) (userId : Option String)
  | expire (seatId : String)
  | snap
deriving Repr

/-- Store-effect of one stimulus.  `GET /seats` computes `snapshot store`
but never assigns to the registry, so its store-effect is the identity. -/
def step (op : Op) (store : Store) : Store :=
  match op with
  | .lock seatId userId now tid => (lockOp store seatId userId now tid).2
  | .confirm seatId userId now => (confirmOp store seatId userId now).2
  | .unlock seatId userId => (unlockOp store seatId userId).2
  | .expire seatId => expireCallback seatId store
  | .snap => store

/-- The spec's per-seat invariant: status is one of the three states, and
owner/expiry are set exactly when the seat is locked. -/
def seatInv (s : Seat) : Prop :=
  (s.status = .available ∨ s.status = .locked ∨ s.status = .booked) ∧
  (s.lockOwner.isSome = true ↔ s.status = .locked) ∧
  (s.lockExpiresAt.isSome = true ↔ s.status = .locked)

instance (s : Seat) : Decidable (seatInv s) := by
  unfold seatInv
  infer_instance

/-- The invariant holds for every seat in the registry. -/
def storeInv (store : Store) : Prop := ∀ p ∈ store, seatInv p.2

instance (store : Store) : Decidable (storeInv store) :=
  List.decidableBAll _ store

/-! ### Association-list lemmas -/

theorem getSeat_cons (k : String) (s0 : Seat) (rest : Store) (id : String) :
    getSeat ((k, s0) :: rest) id = if k = id then some s0 else getSeat rest id := rfl

theorem setSeat_cons (k : String) (s0 : Seat) (rest : Store) (id : String) (s : Seat) :
    setSeat ((k, s0) :: rest) id s =
      (if k = id then (id, s) else (k, s0)) :: setSeat rest id s := rfl

theorem getSeat_mem {store : Store} {id : String} {s : Seat}
    (h : getSeat store id = some s) : (id, s) ∈ store := by
  induction store with
  | nil => simp [getSeat] at h
  | cons p rest ih =>
    obtain ⟨k, s0⟩ := p
    by_cases hk : k = id
    · subst hk
      simp [getSeat] at h
      subst h
      exact List.mem_cons_self _ _
    · simp [getSeat, hk] at h
      exact List.mem_cons_of_mem _ (ih h)

theorem mem_setSeat {store : Store} {id : String} {s : Seat} {p : String × Seat}
    (h : p ∈ setSeat store id s) : p = (id, s) ∨ p ∈ store := by
  induction store with
  | nil => simp [setSeat] at h
  | cons q rest ih =>
    obtain ⟨k, s0⟩ := q
    by_cases hk : k = id
    · simp [setSeat, hk] at h
      rcases h with h | h
      · exact Or.inl h
      · rcases ih h with h1 | h1
        · exact Or.inl h1
        · exact Or.inr (List.mem_cons_of_mem _ h1)
    · simp [setSeat, hk] at h
      rcases h with h | h
      · rw [h]
        exact Or.inr (List.mem_cons_self _ _)
      · rcases ih h with h1 | h1
        · exact Or.inl h1
        · exact Or.inr (List.mem_cons_of_mem _ h1)

theorem storeInv_setSeat {store : Store} {id : String} {s : Seat}
    (h : storeInv store) (hs : seatInv s) : storeInv (setSeat store id s) := by
  intro p hp
  rcases mem_setSeat hp with h1 | h1
  · rw [h1]
    exact hs
  · exact h p h1

theorem getSeat_setSeat_self {store : Store} {id : String} {s0 : Seat}
    (h : getSeat store id = some s0) (s : Seat) :
    getSeat (setSeat store id s) id = some s := by
  induction store with
  | nil => simp [getSeat] at h
  | cons p rest ih =>
    obtain ⟨k, s1⟩ := p
    rw [getSeat_cons] at h
    rw [setSeat_cons]
    by_cases hk : k = id
    · rw [if_pos hk, getSeat_cons, if_pos rfl]
    · rw [if_neg hk] at h
      rw [if_neg hk, getSeat_cons, if_neg hk]
      exact ih h

theorem getSeat_setSeat_ne {store : Store} {id id' : String} (s : Seat)
    (h : id' ≠ id) : getSeat (setSeat store id s) id' = getSeat store id' := by
  induction store with
  | nil => rfl
  | cons p rest ih =>
    obtain ⟨k, s1⟩ := p
    rw [setSeat_cons]
    by_cases hk : k = id
    · rw [if_pos hk, getSeat_cons, getSeat_cons, if_neg (Ne.symm h),
        if_neg (hk ▸ Ne.symm h), ih]
    · rw [if_neg hk, getSeat_cons, getSeat_cons, ih]

theorem setSeat_setSeat (store : Store) (id : String) (s1 s2 : Seat) :
    setSeat (setSeat store id s1) id s2 = setSeat store id s2 := by
  induction store with
  | nil => rfl
  | cons p rest ih =>
    obtain ⟨k, s0⟩ := p
    rw [setSeat_cons, setSeat_cons]
    by_cases hk : k = id
    · rw [if_pos hk, setSeat_cons, if_pos rfl, if_pos hk, ih]
    · rw [if_neg hk, setSeat_cons, if_neg hk, ih]

/-! ### `releaseSeat` lemmas -/

theorem releaseSeat_of_locked {s : Seat} (h : s.status = .locked) :
    releaseSeat s = { status := .available, lockOwner := none,
                      lockExpiresAt := none, timer := none } := by
  obtain ⟨st, ow, ex, tm⟩ := s
  dsimp at h
  subst h
  unfold releaseSeat
  cases tm <;> simp

theorem releaseSeat_of_not_locked {s : Seat} (h : s.status ≠ .locked) :
    releaseSeat s = { s with timer := none } := by
  obtain ⟨st, ow, ex, tm⟩ := s
  unfold releaseSeat
  cases tm <;> simp_all

theorem seatInv_releaseSeat {s : Seat} (h : seatInv s) : seatInv (releaseSeat s) := by
  by_cases hl : s.status = .locked
  · rw [releaseSeat_of_locked hl]
    unfold seatInv
    simp
  · rw [releaseSeat_of_not_locked hl]
    unfold seatInv at h ⊢
    simpa using h

theorem missingUser_isSome {u : Option String} (h : missingUser u = false) :
    u.isSome = true := by
  cases u with
  | none => simp [missingUser] at h
  | some v => rfl

theorem releaseLock_eq {store : Store} {sid : String} {s : Seat}
    (heq : getSeat store sid = some s) :
    releaseLock sid store = setSeat store sid (releaseSeat s) := by
  unfold releaseLock
  rw [heq]

/-! ### Handler-level lemmas, shared by several claims -/

theorem lock_notFound_aux {store : Store} {seatId : String} {userId : Option String}
    {now tid : Nat}
    (hu : missingUser userId = false)
    (hs : getSeat store seatId = none) :
    lockOp store seatId userId now tid = (.error .notFound, store) := by
  simp [lockOp, hu, hs]

theorem lock_conflict_aux {store : Store} {seatId : String} {userId : Option String}
    {now tid : Nat} {seat : Seat}
    (hu : missingUser userId = false)
    (hs : getSeat store seatId = some seat)
    (hl : seat.status = .locked)
    (hx : lockLapsed seat.lockExpiresAt now = false) :
    lockOp store seatId userId now tid = (.error .conflict, store) := by
  simp [lockOp, hu, hs, hl, hx]

theorem lock_lapsed_aux {store : Store} {seatId : String} {userId : Option String}
    {now tid : Nat} {seat : Seat}
    (hu : missingUser userId = false)
    (hs : getSeat store seatId = some seat)
    (hl : seat.status = .locked)
    (hx : lockLapsed seat.lockExpiresAt now = true) :
    lockOp store seatId userId now tid =
      (.ok (now + LOCK_TTL_MS),
       setSeat store seatId
         { status := .locked, lockOwner := userId,
           lockExpiresAt := some (now + LOCK_TTL_MS), timer := some tid }) := by
  simp [lockOp, hu, hs, hl, hx, releaseSeat_of_locked hl, setSeat_setSeat]

theorem confirm_expired_aux {store : Store} {seatId : String} {u : String}
    {now : Nat} {seat : Seat}
    (hu : missingUser (some u) = false)
    (hs : getSeat store seatId = some seat)
    (hl : seat.status = .locked)
    (ho : seat.lockOwner = some u)
    (hx : expiryLapsed seat.lockExpiresAt now = true) :
    confirmOp store seatId (some u) now =
      (.error .expired,
       setSeat store seatId
         { status := .available, lockOwner := none,
           lockExpiresAt := none, timer := none }) := by
  simp [confirmOp, hu, hs, hl, ho, hx, releaseSeat_of_locked hl]

/-! ### Invariant preservation -/

theorem seatInv_acquired {userId : Option String} (hu : missingUser userId = false)
    (e tid : Nat) :
    seatInv { status := .locked, lockOwner := userId,
              lockExpiresAt := some e, timer := some tid } := by
  unfold seatInv
  simp [missingUser_isSome hu]

theorem seatInv_booked_write (seat : Seat) :
    seatInv { seat with
      status := .booked,
      lockOwner := none,
      lockExpiresAt := none,
      timer := none } := by
  unfold seatInv
  simp

/-- Every stimulus either leaves the registry unchanged or overwrites a
single existing, non-Booked seat with a seat that respects the invariant. -/
theorem step_cases (op : Op) (store : Store) :
    step op store = store ∨
    ∃ sid seat0 s', getSeat store sid = some seat0 ∧ seat0.status ≠ .booked ∧
      (seatInv seat0 → seatInv s') ∧ step op store = setSeat store sid s' := by
  cases op with
  | snap => exact Or.inl rfl
  | expire sid =>
    have hr : step (Op.expire sid) store = expireCallback sid store := rfl
    unfold expireCallback at hr
    split at hr
    · exact Or.inl hr
    · next s heq =>
      split at hr
      · next hl =>
        exact Or.inr ⟨sid, s, releaseSeat s, heq, by simp [hl],
          fun hi => seatInv_releaseSeat hi, hr.trans (releaseLock_eq heq)⟩
      · exact Or.inl hr
  | lock sid uid now tid =>
    have hr : step (Op.lock sid uid now tid) store = (lockOp store sid uid now tid).2 := rfl
    unfold lockOp at hr
    split at hr
    · exact Or.inl hr
    · next hu0 =>
      have hu : missingUser uid = false := by simpa using hu0
      split at hr
      · exact Or.inl hr
      · next seat heq =>
        split at hr
        · exact Or.inl hr
        · next hb =>
          split at hr
          · split at hr
            · split at hr
              · exact Or.inr ⟨sid, seat, releaseSeat seat, heq, hb,
                  fun hi => seatInv_releaseSeat hi, hr⟩
              · exact Or.inr ⟨sid, seat,
                  { status := .locked, lockOwner := uid,
                    lockExpiresAt := some (now + LOCK_TTL_MS), timer := some tid },
                  heq, hb, fun _ => seatInv_acquired hu _ _,
                  hr.trans (setSeat_setSeat store sid (releaseSeat seat) _)⟩
            · exact Or.inl hr
          · split at hr
            · exact Or.inl hr
            · exact Or.inr ⟨sid, seat,
                { status := .locked, lockOwner := uid,
                  lockExpiresAt := some (now + LOCK_TTL_MS), timer := some tid },
                heq, hb, fun _ => seatInv_acquired hu _ _, hr⟩
  | confirm sid uid now =>
    have hr : step (Op.confirm sid uid now) store = (confirmOp store sid uid now).2 := rfl
    unfold confirmOp at hr
    split at hr
    · exact Or.inl hr
    · split at hr
      · exact Or.inl hr
      · next seat heq =>
        split at hr
        · exact Or.inl hr
        · next hb =>
          split at hr
          · exact Or.inl hr
          · split at hr
            · exact Or.inl hr
            · split at hr
              · exact Or.inr ⟨sid, seat, releaseSeat seat, heq, hb,
                  fun hi => seatInv_releaseSeat hi, hr⟩
              · exact Or.inr ⟨sid, seat, _, heq, hb,
                  fun _ => seatInv_booked_write seat, hr⟩
  | unlock sid uid =>
    have hr : step (Op.unlock sid uid) store = (unlockOp store sid uid).2 := rfl
    unfold unlockOp at hr
    split at hr
    · exact Or.inl hr
    · split at hr
      · exact Or.inl hr
      · next seat heq =>
        split at hr
        · exact Or.inl hr
        · next hnl =>
          have hl : seat.status = .locked := by
            by_contra hc
            exact hnl hc
          split at hr
          · exact Or.inl hr
          · exact Or.inr ⟨sid, seat, releaseSeat seat, heq, by simp [hl],
              fun hi => seatInv_releaseSeat hi, hr⟩

theorem storeInv_step (op : Op) (store : Store) (h : storeInv store) :
    storeInv (step op store) := by
  rcases step_cases op store with he | ⟨sid, s0, s', heq, _, hi, he⟩
  · rw [he]
    exact h
  · rw [he]
    exact storeInv_setSeat h (hi (h _ (getSeat_mem heq)))

theorem lock_available_aux {store : Store} {seatId : String} {userId : Option String}
    {now tid : Nat} {seat : Seat}
    (hu : missingUser userId = false)
    (hs : getSeat store seatId = some seat)
    (ha : seat.status = .available) :
    lockOp store seatId userId now tid =
      (.ok (now + LOCK_TTL_MS),
       setSeat store seatId
         { status := .locked, lockOwner := userId,
           lockExpiresAt := some (now + LOCK_TTL_MS), timer := some tid }) := by
  simp [lockOp, hu, hs, ha]

theorem expire_locked_aux {store : Store} {sid : String} {s : Seat}
    (heq : getSeat store sid = some s) (hl : s.status = .locked) :
    expireCallback sid store =
      setSeat store sid
        { status := .available, lockOwner := none,
          lockExpiresAt := none, timer := none } := by
  unfold expireCallback
  rw [heq]
  dsimp only
  rw [if_pos hl, releaseLock_eq heq, releaseSeat_of_locked hl]

/-! ## Claims -/

/-- C1: starting from the initial registry, in which every seat is
Available with null owner/expiry/timer, every stimulus — Lock, Confirm,
Unlock, Snapshot and the expiry callback — preserves the state invariant:
each seat's status is exactly one of Available, Locked, Booked, and its
lockOwner and lockExpiresAt are both set if and only if the status is
Locked (both null otherwise). -/
theorem C1_state_invariant (op : Op) (store : Store) (h : storeInv store) :
    storeInv initSeats ∧ storeInv (step op store) :=
  ⟨by decide, storeInv_step op store h⟩

theorem C1_state_invariant_witness :
    storeInv initSeats ∧ storeInv (step (Op.lock "1" (some "alice") 5 0) initSeats) :=
  C1_state_invariant (Op.lock "1" (some "alice") 5 0) initSeats (by decide)

/-- C2: a Lock call on a seat that is Locked with an expiry strictly in the
future fails with Conflict for every present claimant — the current owner
included — and the registry, hence the seat's status, owner, expiry and
pending timer, is returned unchanged. -/
theorem C2_lock_conflict (store : Store) (seatId u : String) (now tid t : Nat)
    (seat : Seat)
    (hu : missingUser (some u) = false)
    (hs : getSeat store seatId = some seat)
    (hl : seat.status = .locked)
    (he : seat.lockExpiresAt = some t)
    (hnow : now < t) :
    lockOp store seatId (some u) now tid = (.error .conflict, store) :=
  lock_conflict_aux hu hs hl (by
    rw [he]
    simp only [lockLapsed, decide_eq_false_iff_not]
    omega)

theorem C2_lock_conflict_witness :
    lockOp [("1", (⟨.locked, some "alice", some 100, some 7⟩ : Seat))] "1"
        (some "alice") 50 9
      = (.error .conflict,
         [("1", (⟨.locked, some "alice", some 100, some 7⟩ : Seat))]) :=
  C2_lock_conflict _ "1" "alice" 50 9 100 ⟨.locked, some "alice", some 100, some 7⟩
    (by decide) (by decide) rfl rfl (by decide)

/-- C3: a Lock call with a non-empty claimant on a known seat that is
Locked with a (nonzero) expiry timestamp at or before the current time
succeeds: the net effect on the registry is the same as releasing the
stale lock first and then locking, the seat ends Locked with owner the
claimant, expiry now + TTL and the freshly scheduled timer, and the new
expiry timestamp is returned. -/
theorem C3_lapsed_reclaim (store : Store) (seatId u : String) (now tid t : Nat)
    (seat : Seat)
    (hu : missingUser (some u) = false)
    (hs : getSeat store seatId = some seat)
    (hl : seat.status = .locked)
    (he : seat.lockExpiresAt = some t)
    (ht : 0 < t) (hnow : t ≤ now) :
    lockOp store seatId (some u) now tid =
      (.ok (now + LOCK_TTL_MS),
       setSeat store seatId
         { status := .locked, lockOwner := some u,
           lockExpiresAt := some (now + LOCK_TTL_MS), timer := some tid }) ∧
    lockOp store seatId (some u) now tid =
      lockOp (releaseLock seatId store) seatId (some u) now tid := by
  have hx : lockLapsed seat.lockExpiresAt now = true := by
    rw [he]
    simp only [lockLapsed, decide_eq_true_eq]
    omega
  have h1 := @lock_lapsed_aux store seatId (some u) now tid seat hu hs hl hx
  refine ⟨h1, ?_⟩
  rw [h1, releaseLock_eq hs,
    lock_available_aux hu (getSeat_setSeat_self hs (releaseSeat seat))
      (by rw [releaseSeat_of_locked hl]),
    setSeat_setSeat]

theorem C3_lapsed_reclaim_witness :
    (lockOp [("1", (⟨.locked, some "alice", some 100, some 7⟩ : Seat))] "1"
        (some "bob") 150 9
      = (.ok (150 + LOCK_TTL_MS),
         setSeat [("1", (⟨.locked, some "alice", some 100, some 7⟩ : Seat))] "1"
           { status := .locked, lockOwner := some "bob",
             lockExpiresAt := some (150 + LOCK_TTL_MS), timer := some 9 })) ∧
    lockOp [("1", (⟨.locked, some "alice", some 100, some 7⟩ : Seat))] "1"
        (some "bob") 150 9
      = lockOp (releaseLock "1" [("1", (⟨.locked, some "alice", some 100, some 7⟩ : Seat))])
          "1" (some "bob") 150 9 :=
  C3_lapsed_reclaim _ "1" "bob" 150 9 100 ⟨.locked, some "alice", some 100, some 7⟩
    (by decide) (by decide) rfl rfl (by decide) (by decide)

/-- C4: Booked is terminal.  No stimulus — Lock, Confirm, Unlock, Snapshot
or the expiry callback — ever changes the status of a Booked seat; a Lock
or Confirm aimed at it fails with AlreadyBooked, an Unlock fails with
NotLocked, and the release path's status guard keeps a Booked seat's
status, owner and expiry (and, when no timer is pending — which is the
case for every reachable Booked seat — the whole record) intact. -/
theorem C4_booked_terminal :
    (∀ op store id s, getSeat store id = some s → s.status = .booked →
      ∃ s', getSeat (step op store) id = some s' ∧ s'.status = .booked) ∧
    (∀ store id u now tid s, missingUser (some u) = false →
      getSeat store id = some s → s.status = .booked →
      lockOp store id (some u) now tid = (.error .alreadyBooked, store)) ∧
    (∀ store id u now s, missingUser (some u) = false →
      getSeat store id = some s → s.status = .booked →
      confirmOp store id (some u) now = (.error .alreadyBooked, store)) ∧
    (∀ store id u s, missingUser (some u) = false →
      getSeat store id = some s → s.status = .booked →
      unlockOp store id (some u) = (.error .notLocked, store)) ∧
    (∀ s, s.status = .booked →
      (releaseSeat s).status = .booked ∧ (s.timer = none → releaseSeat s = s)) := by
  refine ⟨?_, ?_, ?_, ?_, ?_⟩
  · intro op store id s hs hb
    rcases step_cases op store with he | ⟨sid, s0, s', heq, hnb, _, he⟩
    · rw [he]
      exact ⟨s, hs, hb⟩
    · by_cases hid : id = sid
      · subst hid
        have hss : s = s0 := Option.some.inj (hs.symm.trans heq)
        exact absurd hb (hss ▸ hnb)
      · rw [he, getSeat_setSeat_ne _ hid]
        exact ⟨s, hs, hb⟩
  · intro store id u now tid s hu hs hb
    simp [lockOp, hu, hs, hb]
  · intro store id u now s hu hs hb
    simp [confirmOp, hu, hs, hb]
  · intro store id u s hu hs hb
    simp [unlockOp, hu, hs, hb]
  · intro s hb
    have hnl : s.status ≠ .locked := by
      rw [hb]
      decide
    rw [releaseSeat_of_not_locked hnl]
    refine ⟨hb, fun ht => ?_⟩
    obtain ⟨st, ow, ex, tm⟩ := s
    dsimp at ht
    rw [ht]

theorem C4_booked_terminal_witness :
    (∃ s', getSeat (step (Op.expire "1")
        [("1", (⟨.booked, none, none, none⟩ : Seat))]) "1" = some s' ∧
      s'.status = .booked) ∧
    lockOp [("1", (⟨.booked, none, none, none⟩ : Seat))] "1" (some "bob") 0 0
      = (.error .alreadyBooked, [("1", (⟨.booked, none, none, none⟩ : Seat))]) ∧
    confirmOp [("1", (⟨.booked, none, none, none⟩ : Seat))] "1" (some "bob") 0
      = (.error .alreadyBooked, [("1", (⟨.booked, none, none, none⟩ : Seat))]) ∧
    unlockOp [("1", (⟨.booked, none, none, none⟩ : Seat))] "1" (some "bob")
      = (.error .notLocked, [("1", (⟨.booked, none, none, none⟩ : Seat))]) ∧
    ((releaseSeat (⟨.booked, none, none, none⟩ : Seat)).status = .booked ∧
      ((⟨.booked, none, none, none⟩ : Seat).timer = none →
        releaseSeat ⟨.booked, none, none, none⟩ = ⟨.booked, none, none, none⟩)) :=
  ⟨C4_booked_terminal.1 (Op.expire "1") _ "1" ⟨.booked, none, none, none⟩
      (by decide) rfl,
   C4_booked_terminal.2.1 _ "1" "bob" 0 0 ⟨.booked, none, none, none⟩
      (by decide) (by decide) rfl,
   C4_booked_terminal.2.2.1 _ "1" "bob" 0 ⟨.booked, none, none, none⟩
      (by decide) (by decide) rfl,
   C4_booked_terminal.2.2.2.1 _ "1" "bob" ⟨.booked, none, none, none⟩
      (by decide) (by decide) rfl,
   C4_booked_terminal.2.2.2.2 ⟨.booked, none, none, none⟩ rfl⟩

/-- C5: a Confirm by the current lock owner on a Locked seat whose expiry
is unset or at/before the current time fails with Expired and, as a side
effect, resets the seat to Available with owner and expiry cleared and the
pending timer cancelled. -/
theorem C5_confirm_expired (store : Store) (seatId u : String) (now : Nat)
    (seat : Seat)
    (hu : missingUser (some u) = false)
    (hs : getSeat store seatId = some seat)
    (hl : seat.status = .locked)
    (ho : seat.lockOwner = some u)
    (he : seat.lockExpiresAt = none ∨ ∃ t, seat.lockExpiresAt = some t ∧ t ≤ now) :
    confirmOp store seatId (some u) now =
      (.error .expired,
       setSeat store seatId
         { status := .available, lockOwner := none,
           lockExpiresAt := none, timer := none }) := by
  apply confirm_expired_aux hu hs hl ho
  rcases he with h | ⟨t, h, hle⟩
  · rw [h]
    rfl
  · rw [h]
    simp only [expiryLapsed, decide_eq_true_eq]
    omega

theorem C5_confirm_expired_witness :
    confirmOp [("5", (⟨.locked, some "carol", some 100, some 7⟩ : Seat))] "5"
        (some "carol") 100
      = (.error .expired,
         setSeat [("5", (⟨.locked, some "carol", some 100, some 7⟩ : Seat))] "5"
           { status := .available, lockOwner := none,
             lockExpiresAt := none, timer := none }) :=
  C5_confirm_expired _ "5" "carol" 100 ⟨.locked, some "carol", some 100, some 7⟩
    (by decide) (by decide) rfl rfl (Or.inr ⟨100, rfl, by decide⟩)

/-- C6: the expiry callback scheduled by a successful Lock, when it fires,
on its own resets the seat to Available with owner and expiry cleared; it
first re-checks that the seat still exists and is still Locked and is a
no-op otherwise (including when the resource is absent). -/
theorem C6_expiry_callback :
    (∀ store seatId userId now tid e store1,
      lockOp store seatId userId now tid = (.ok e, store1) →
      expireCallback seatId store1 =
        setSeat store1 seatId
          { status := .available, lockOwner := none,
            lockExpiresAt := none, timer := none }) ∧
    (∀ store seatId s, getSeat store seatId = some s → s.status ≠ .locked →
      expireCallback seatId store = store) ∧
    (∀ store seatId, getSeat store seatId = none →
      expireCallback seatId store = store) := by
  refine ⟨?_, ?_, ?_⟩
  · intro store seatId userId now tid e store1 h
    unfold lockOp at h
    split at h
    · simp at h
    · split at h
      · simp at h
      · next seat heq =>
        split at h
        · simp at h
        · split at h
          · split at h
            · split at h
              · simp at h
              · rw [Prod.mk.injEq] at h
                have hst := h.2
                subst hst
                exact expire_locked_aux
                  (getSeat_setSeat_self (getSeat_setSeat_self heq _) _) rfl
            · simp at h
          · split at h
            · simp at h
            · rw [Prod.mk.injEq] at h
              have hst := h.2
              subst hst
              exact expire_locked_aux (getSeat_setSeat_self heq _) rfl
  · intro store seatId s heq hnl
    unfold expireCallback
    rw [heq]
    dsimp only
    rw [if_neg hnl]
  · intro store seatId heq
    unfold expireCallback
    rw [heq]

theorem C6_expiry_callback_witness :
    expireCallback "2" (setSeat initSeats "2"
        { status := .locked, lockOwner := some "dave",
          lockExpiresAt := some (10 + LOCK_TTL_MS), timer := some 3 })
      = setSeat (setSeat initSeats "2"
          { status := .locked, lockOwner := some "dave",
            lockExpiresAt := some (10 + LOCK_TTL_MS), timer := some 3 }) "2"
          { status := .available, lockOwner := none,
            lockExpiresAt := none, timer := none } ∧
    expireCallback "1" [("1", (⟨.booked, none, none, none⟩ : Seat))]
      = [("1", (⟨.booked, none, none, none⟩ : Seat))] ∧
    expireCallback "9" ([] : Store) = ([] : Store) :=
  ⟨C6_expiry_callback.1 initSeats "2" (some "dave") 10 3 (10 + LOCK_TTL_MS) _
      rfl,
   C6_expiry_callback.2.1 _ "1" ⟨.booked, none, none, none⟩ (by decide)
      (by decide),
   C6_expiry_callback.2.2 ([] : Store) "9" rfl⟩

/-- C7 as stated is false: the claimant check precedes the registry lookup,
so a Lock on an unknown resourceId with a missing claimantId fails with
InvalidRequest, not NotFound.  Concrete counterexample: seat "99" is not in
the initial registry and the claimant is absent. -/
theorem C7_counterexample :
    getSeat initSeats "99" = none ∧
    lockOp initSeats "99" none 0 0 = (.error .invalidRequest, initSeats) ∧
    ApiError.invalidRequest ≠ ApiError.notFound :=
  ⟨by decide, rfl, by decide⟩

/-- C7 (amended): a Lock call with a present, non-empty claimantId on an
unknown resourceId fails with NotFound with the registry unchanged; with a
missing or empty claimantId any Lock call instead fails with
InvalidRequest. -/
theorem C7_unknown_notFound :
    (∀ store seatId u now tid, missingUser (some u) = false →
      getSeat store seatId = none →
      lockOp store seatId (some u) now tid = (.error .notFound, store)) ∧
    (∀ store seatId userId now tid, missingUser userId = true →
      lockOp store seatId userId now tid = (.error .invalidRequest, store)) := by
  constructor
  · intro store seatId u now tid hu hs
    exact lock_notFound_aux hu hs
  · intro store seatId userId now tid hu
    simp [lockOp, hu]

theorem C7_unknown_notFound_witness :
    lockOp initSeats "99" (some "alice") 0 0 = (.error .notFound, initSeats) ∧
    lockOp initSeats "99" none 0 0 = (.error .invalidRequest, initSeats) :=
  ⟨C7_unknown_notFound.1 initSeats "99" "alice" 0 0 (by decide) (by decide),
   C7_unknown_notFound.2 initSeats "99" none 0 0 rfl⟩

/-- C8: an Unlock by a present claimant other than the lock owner of a
Locked seat fails with Forbidden, and the registry — hence the seat's
status, owner, expiry and pending timer — is returned unchanged. -/
theorem C8_unlock_forbidden (store : Store) (seatId u : String) (seat : Seat)
    (hu : missingUser (some u) = false)
    (hs : getSeat store seatId = some seat)
    (hl : seat.status = .locked)
    (ho : seat.lockOwner ≠ some u) :
    unlockOp store seatId (some u) = (.error .forbidden, store) := by
  simp [unlockOp, hu, hs, hl, ho]

theorem C8_unlock_forbidden_witness :
    unlockOp [("1", (⟨.locked, some "alice", some 100, some 7⟩ : Seat))] "1"
        (some "bob")
      = (.error .forbidden,
         [("1", (⟨.locked, some "alice", some 100, some 7⟩ : Seat))]) :=
  C8_unlock_forbidden _ "1" "bob" ⟨.locked, some "alice", some 100, some 7⟩
    (by decide) (by decide) rfl (by decide)

/-- C9: the Snapshot handler never mutates the registry; the exposed view
of a non-Locked seat has null owner and expiry regardless of the stored
field values, the view of a Locked seat exposes the stored owner and
expiry, and the view is independent of the timer handle (which the view
type does not even contain). -/
theorem C9_snapshot_view :
    (∀ store, step Op.snap store = store) ∧
    (∀ store id s, getSeat store id = some s → s.status ≠ .locked →
      (id, viewOf s) ∈ snapshot store ∧
      (viewOf s).lockOwner = none ∧ (viewOf s).lockExpiresAt = none) ∧
    (∀ store id s, getSeat store id = some s → s.status = .locked →
      (id, viewOf s) ∈ snapshot store ∧
      (viewOf s).lockOwner = s.lockOwner ∧
      (viewOf s).lockExpiresAt = s.lockExpiresAt) ∧
    (∀ s tm, viewOf { s with timer := tm } = viewOf s) := by
  refine ⟨fun store => rfl, ?_, ?_, ?_⟩
  · intro store id s hs hnl
    exact ⟨List.mem_map_of_mem _ (getSeat_mem hs),
      by simp [viewOf, hnl], by simp [viewOf, hnl]⟩
  · intro store id s hs hl
    exact ⟨List.mem_map_of_mem _ (getSeat_mem hs),
      by simp [viewOf, hl], by simp [viewOf, hl]⟩
  · intro s tm
    obtain ⟨st, ow, ex, tm0⟩ := s
    simp [viewOf]

theorem C9_snapshot_view_witness :
    step Op.snap initSeats = initSeats ∧
    (("1", viewOf ⟨.available, some "ghost", some 42, some 9⟩) ∈
        snapshot [("1", (⟨.available, some "ghost", some 42, some 9⟩ : Seat))] ∧
      (viewOf (⟨.available, some "ghost", some 42, some 9⟩ : Seat)).lockOwner
        = none ∧
      (viewOf (⟨.available, some "ghost", some 42, some 9⟩ : Seat)).lockExpiresAt
        = none) ∧
    (("1", viewOf ⟨.locked, some "alice", some 100, some 7⟩) ∈
        snapshot [("1", (⟨.locked, some "alice", some 100, some 7⟩ : Seat))] ∧
      (viewOf (⟨.locked, some "alice", some 100, some 7⟩ : Seat)).lockOwner
        = some "alice" ∧
      (viewOf (⟨.locked, some "alice", some 100, some 7⟩ : Seat)).lockExpiresAt
        = some 100) ∧
    viewOf { (⟨.available, none, none, none⟩ : Seat) with timer := some 5 }
      = viewOf (⟨.available, none, none, none⟩ : Seat) :=
  ⟨C9_snapshot_view.1 initSeats,
   C9_snapshot_view.2.1 _ "1" ⟨.available, some "ghost", some 42, some 9⟩
      (by decide) (by decide),
   C9_snapshot_view.2.2.1 _ "1" ⟨.locked, some "alice", some 100, some 7⟩
      (by decide) rfl,
   C9_snapshot_view.2.2.2 ⟨.available, none, none, none⟩ (some 5)⟩

/-- C10: on a seat that is Locked while lockExpiresAt is unset, a Lock call
with a present claimant fails with Conflict regardless of the current time
(the lapsed-reclaim test requires a set, truthy expiry), while a Confirm by
the owner on the same state treats the unset expiry as expired: it fails
with Expired and resets the seat to Available. -/
theorem C10_null_expiry_edge :
    (∀ store seatId u now tid seat, missingUser (some u) = false →
      getSeat store seatId = some seat → seat.status = .locked →
      seat.lockExpiresAt = none →
      lockOp store seatId (some u) now tid = (.error .conflict, store)) ∧
    (∀ store seatId u now seat, missingUser (some u) = false →
      getSeat store seatId = some seat → seat.status = .locked →
      seat.lockExpiresAt = none → seat.lockOwner = some u →
      confirmOp store seatId (some u) now =
        (.error .expired,
         setSeat store seatId
           { status := .available, lockOwner := none,
             lockExpiresAt := none, timer := none })) := by
  constructor
  · intro store seatId u now tid seat hu hs hl he
    exact lock_conflict_aux hu hs hl (by rw [he]; rfl)
  · intro store seatId u now seat hu hs hl he ho
    exact confirm_expired_aux hu hs hl ho (by rw [he]; rfl)

theorem C10_null_expiry_edge_witness :
    lockOp [("1", (⟨.locked, some "alice", none, some 7⟩ : Seat))] "1"
        (some "bob") 999999 9
      = (.error .conflict,
         [("1", (⟨.locked, some "alice", none, some 7⟩ : Seat))]) ∧
    confirmOp [("1", (⟨.locked, some "alice", none, some 7⟩ : Seat))] "1"
        (some "alice") 0
      = (.error .expired,
         setSeat [("1", (⟨.locked, some "alice", none, some 7⟩ : Seat))] "1"
           { status := .available, lockOwner := none,
             lockExpiresAt := none, timer := none }) :=
  ⟨C10_null_expiry_edge.1 _ "1" "bob" 999999 9 ⟨.locked, some "alice", none, some 7⟩
      (by decide) (by decide) rfl rfl,
   C10_null_expiry_edge.2 _ "1" "alice" 0 ⟨.locked, some "alice", none, some 7⟩
      (by decide) (by decide) rfl rfl rfl⟩

end SeatLock
